import Mathlib

/-!
Shallow embedding of `apple-codesign/src/app_store_connect.rs`: the App Store
Connect client used for notarization.  Pure response-interpretation functions
(`state_str`, `is_done`, `into_result` on both response types) are translated
directly; the token mint (`ConnectToken::new_token`) is modelled as a pure
function of the clock, with the external `jsonwebtoken::encode` signing step
abstracted as a parameter; the mutex-guarded single-slot token cache shared by
the four gateway operations is modelled as explicit state passing (the mutex
serializes all accesses, so a sequential trace is faithful).
-/

namespace AppStoreConnect

/-- Minimal model of `serde_json::Value` (used only for the opaque `meta`
fields, which no function in the source inspects). -/
inductive Value where
  | null : Value
  | bool (b : Bool) : Value
  | num (n : Int) : Value
  | str (s : String) : Value
  | arr (elems : List Value) : Value
  | obj (fields : List (String × Value)) : Value

/-- The variants of `AppleCodesignError` produced by the code under
consideration (the notarization outcome taxonomy). -/
inductive AppleCodesignError where
  | NotarizeIncomplete : AppleCodesignError
  | NotarizeInvalid : AppleCodesignError
  | NotarizeRejected (code : Int) (message : String) : AppleCodesignError
deriving DecidableEq

/-- `MoreInfo` from the source: the optional content digest holder. -/
structure MoreInfo where
  hash : Option String
deriving DecidableEq

/-- `DevIdPlus`: the legacy status document body.  `i64` fields are `Int`. -/
structure DevIdPlus where
  date_str : String
  log_file_url : Option String
  more_info : Option MoreInfo
  request_status : Int
  request_uuid : String
  status_code : Option Int
  status_message : Option String
deriving DecidableEq

/-- `DevIdPlusInfoResponse`: response to the legacy
`developerIDPlusInfoForPackageWithArguments` RPC method. -/
structure DevIdPlusInfoResponse where
  dev_id_plus : DevIdPlus
deriving DecidableEq

/-- `DevIdPlusInfoResponse::state_str`: the human-readable five-stage progress
narration, translated branch for branch from the source. -/
def DevIdPlusInfoResponse.state_str (self : DevIdPlusInfoResponse) : String :=
  if self.dev_id_plus.log_file_url.isSome then
    "5/5 have log URL; operation complete"
  else
    match self.dev_id_plus.status_code with
    | some code => s!"4/5 have status code ({code}); waiting on log URL"
    | none =>
      match self.dev_id_plus.more_info with
      | some more_info =>
        match more_info.hash with
        | some hash => s!"3/5 have hash ({hash}); waiting on status code"
        | none => "2/5 some metadata; waiting on hash to appear"
      | none => "1/5 initial state; waiting on initial metadata"

/-- The stage number (1-5) computed by the same branch structure as
`state_str`; `legacyStage r` is the `n` of the `n/5` head of `state_str r`
(lemma `state_str_stage_cases` below ties the two together). -/
def legacyStage (self : DevIdPlusInfoResponse) : Nat :=
  if self.dev_id_plus.log_file_url.isSome then 5
  else
    match self.dev_id_plus.status_code with
    | some _ => 4
    | none =>
      match self.dev_id_plus.more_info with
      | some more_info =>
        match more_info.hash with
        | some _ => 3
        | none => 2
      | none => 1

/-- `DevIdPlusInfoResponse::is_done`: whether the server appears done. -/
def DevIdPlusInfoResponse.is_done (self : DevIdPlusInfoResponse) : Bool :=
  self.dev_id_plus.status_code.isSome && self.dev_id_plus.log_file_url.isSome

/-- `DevIdPlusInfoResponse::into_result`: the terminal success/failure
verdict on a legacy status document. -/
def DevIdPlusInfoResponse.into_result (self : DevIdPlusInfoResponse) :
    Except AppleCodesignError DevIdPlusInfoResponse :=
  match self.dev_id_plus.status_code, self.dev_id_plus.status_message with
  | some code, some message =>
    if code = 0 then Except.ok self
    else Except.error (AppleCodesignError.NotarizeRejected code message)
  | _, _ => Except.error AppleCodesignError.NotarizeIncomplete

/-- Presence of the log URL field. -/
def hasLog (r : DevIdPlusInfoResponse) : Bool :=
  r.dev_id_plus.log_file_url.isSome

/-- Presence of the numeric status code field. -/
def hasCode (r : DevIdPlusInfoResponse) : Bool :=
  r.dev_id_plus.status_code.isSome

/-- Presence of the status message field. -/
def hasMessage (r : DevIdPlusInfoResponse) : Bool :=
  r.dev_id_plus.status_message.isSome

/-- Presence of the more-info section. -/
def hasMoreInfo (r : DevIdPlusInfoResponse) : Bool :=
  r.dev_id_plus.more_info.isSome

/-- Presence of the content digest (nested inside the more-info section). -/
def hasHash (r : DevIdPlusInfoResponse) : Bool :=
  match r.dev_id_plus.more_info with
  | some more_info => more_info.hash.isSome
  | none => false

/-- The five-stage classification exactly as the spec sentence words it:
stage 4 (`StatusKnown`) demands that the status code AND the status message
are both present.  Kept separate from `legacyStage` (the source's behaviour)
so the two can be compared. -/
def classifyLegacySpec (r : DevIdPlusInfoResponse) : Nat :=
  if hasLog r = true then 5
  else if (hasCode r && hasMessage r) = true then 4
  else if hasHash r = true then 3
  else if hasMoreInfo r = true then 2
  else 1

/-- The classification with the stage-4 condition amended to what the source
checks: the status code alone (the status message is not required). -/
def classifyLegacyAmended (r : DevIdPlusInfoResponse) : Nat :=
  if hasLog r = true then 5
  else if hasCode r = true then 4
  else if hasHash r = true then 3
  else if hasMoreInfo r = true then 2
  else 1

/-- Field-presence comparison on legacy documents: every optional field
present in `a` is present in `b`. -/
def fieldsSubset (a b : DevIdPlusInfoResponse) : Prop :=
  (hasLog a = true → hasLog b = true)
  ∧ (hasCode a = true → hasCode b = true)
  ∧ (hasMessage a = true → hasMessage b = true)
  ∧ (hasMoreInfo a = true → hasMoreInfo b = true)
  ∧ (hasHash a = true → hasHash b = true)

/-- Convenience constructor for legacy documents; the fields never inspected
by the interpretation functions are fixed. -/
def legacyDoc (log : Option String) (mi : Option MoreInfo) (code : Option Int)
    (message : Option String) : DevIdPlusInfoResponse :=
  { dev_id_plus :=
    { date_str := "2022-03-01"
      log_file_url := log
      more_info := mi
      request_status := 1
      request_uuid := "uuid-1234"
      status_code := code
      status_message := message } }

/-- `SubmissionResponseStatus`: the closed status enumeration of the notary
REST API; `Unknown` is the `serde(other)` catch-all variant. -/
inductive SubmissionResponseStatus where
  | Accepted : SubmissionResponseStatus
  | InProgress : SubmissionResponseStatus
  | Invalid : SubmissionResponseStatus
  | Rejected : SubmissionResponseStatus
  | Unknown : SubmissionResponseStatus
deriving DecidableEq

/-- Deserialization of `SubmissionResponseStatus` from its wire string, as
the serde attributes on the source enum prescribe: PascalCase variant names,
an explicit rename of `InProgress` to "In Progress", and `serde(other)`
sending every other string to `Unknown`. -/
def SubmissionResponseStatus.decode (s : String) : SubmissionResponseStatus :=
  if s = "Accepted" then SubmissionResponseStatus.Accepted
  else if s = "In Progress" then SubmissionResponseStatus.InProgress
  else if s = "Invalid" then SubmissionResponseStatus.Invalid
  else if s = "Rejected" then SubmissionResponseStatus.Rejected
  else SubmissionResponseStatus.Unknown

/-- `SubmissionResponseDataAttributes` from the source. -/
structure SubmissionResponseDataAttributes where
  created_date : String
  name : String
  status : SubmissionResponseStatus
deriving DecidableEq

/-- `SubmissionResponseData` from the source. -/
structure SubmissionResponseData where
  attributes : SubmissionResponseDataAttributes
  id : String
  type : String
deriving DecidableEq

/-- `SubmissionResponse` from the source (the `meta` document is opaque). -/
structure SubmissionResponse where
  data : SubmissionResponseData
  meta : Value

/-- `SubmissionResponse::into_result`: the verdict on a notary REST status. -/
def SubmissionResponse.into_result (self : SubmissionResponse) :
    Except AppleCodesignError SubmissionResponse :=
  match self.data.attributes.status with
  | SubmissionResponseStatus.Accepted => Except.ok self
  | SubmissionResponseStatus.InProgress =>
    Except.error AppleCodesignError.NotarizeIncomplete
  | SubmissionResponseStatus.Invalid =>
    Except.error AppleCodesignError.NotarizeInvalid
  | SubmissionResponseStatus.Rejected =>
    Except.error (AppleCodesignError.NotarizeRejected 0 "Notarization error")
  | SubmissionResponseStatus.Unknown =>
    Except.error AppleCodesignError.NotarizeInvalid

/-- The JWT signing algorithms of the external `jsonwebtoken` crate that this
client can name (`ES256` is the only one the source selects; `HS256` is the
crate's default). -/
inductive Algorithm where
  | HS256 : Algorithm
  | ES256 : Algorithm
deriving DecidableEq

/-- The JWT header fields the source populates. -/
structure Header where
  alg : Algorithm
  kid : Option String
deriving DecidableEq

/-- `ConnectTokenRequest`: the JWT claim set.  `u64` timestamps are `Nat`
values below `U64_MOD`. -/
structure ConnectTokenRequest where
  iss : String
  iat : Nat
  exp : Nat
  aud : String
deriving DecidableEq

/-- `ConnectToken`: the signing identity.  The opaque EC key material is not
modelled; the signing step it feeds is abstracted as an `encode` parameter
where needed. -/
structure ConnectToken where
  key_id : String
  issuer_id : String
deriving DecidableEq

/-- Modulus of `u64` arithmetic. -/
def U64_MOD : Nat := 2 ^ 64

/-- `ConnectToken::new_token` up to the external signing call: the header and
claim set handed to `jsonwebtoken::encode`.  `now` is the UNIX timestamp the
source reads from the system clock; `now + duration` wraps at `u64` width. -/
def ConnectToken.new_token (self : ConnectToken) (duration now : Nat) :
    Header × ConnectTokenRequest :=
  ({ alg := Algorithm.ES256, kid := some self.key_id },
   { iss := self.issuer_id
     iat := now
     exp := (now + duration) % U64_MOD
     aud := "appstoreconnect-v1" })

/-- One pass through the mutex-guarded token block shared by the four gateway
operations: given the outcome `mint` that a mint would produce and the cached
slot, return (result handed to the request, new slot, number of mints
performed).  A mint happens only when the slot is empty; a failed mint
propagates the error and leaves the slot empty. -/
def tokenStep (mint : Except AppleCodesignError String) (slot : Option String) :
    Except AppleCodesignError String × Option String × Nat :=
  match slot with
  | some t => (Except.ok t, some t, 0)
  | none =>
    match mint with
    | Except.ok t => (Except.ok t, some t, 1)
    | Except.error e => (Except.error e, none, 1)

/-- A sequential trace of gateway operations against the token cache: `ms`
lists the outcome each operation's mint would produce if attempted.  Returns
(per-operation results, final slot, total mints performed).  The mutex in the
source serializes all slot accesses, so this trace model is faithful. -/
def runToken : List (Except AppleCodesignError String) → Option String →
    List (Except AppleCodesignError String) × Option String × Nat
  | [], slot => ([], slot, 0)
  | m :: ms, slot =>
    let s := tokenStep m slot
    let rest := runToken ms s.2.1
    (s.1 :: rest.1, rest.2.1, s.2.2 + rest.2.2)

/-- The token-acquisition block of
`AppStoreConnectClient::developer_id_plus_info_for_package_with_arguments`:
mints `self.connect_token.new_token(300)` when the slot is empty.  `encode`
is the external signing step. -/
def developer_id_plus_info_for_package_with_arguments_token
    (self : ConnectToken)
    (encode : Header × ConnectTokenRequest → Except AppleCodesignError String)
    (now : Nat) (slot : Option String) :
    Except AppleCodesignError String × Option String × Nat :=
  match slot with
  | some t => (Except.ok t, some t, 0)
  | none =>
    match encode (self.new_token 300 now) with
    | Except.ok t => (Except.ok t, some t, 1)
    | Except.error e => (Except.error e, none, 1)

/-- The token-acquisition block of `AppStoreConnectClient::create_submission`
(the source repeats the same block verbatim). -/
def create_submission_token (self : ConnectToken)
    (encode : Header × ConnectTokenRequest → Except AppleCodesignError String)
    (now : Nat) (slot : Option String) :
    Except AppleCodesignError String × Option String × Nat :=
  match slot with
  | some t => (Except.ok t, some t, 0)
  | none =>
    match encode (self.new_token 300 now) with
    | Except.ok t => (Except.ok t, some t, 1)
    | Except.error e => (Except.error e, none, 1)

/-- The token-acquisition block of `AppStoreConnectClient::get_submission`. -/
def get_submission_token (self : ConnectToken)
    (encode : Header × ConnectTokenRequest → Except AppleCodesignError String)
    (now : Nat) (slot : Option String) :
    Except AppleCodesignError String × Option String × Nat :=
  match slot with
  | some t => (Except.ok t, some t, 0)
  | none =>
    match encode (self.new_token 300 now) with
    | Except.ok t => (Except.ok t, some t, 1)
    | Except.error e => (Except.error e, none, 1)

/-- The token-acquisition block of
`AppStoreConnectClient::get_submission_log`. -/
def get_submission_log_token (self : ConnectToken)
    (encode : Header × ConnectTokenRequest → Except AppleCodesignError String)
    (now : Nat) (slot : Option String) :
    Except AppleCodesignError String × Option String × Nat :=
  match slot with
  | some t => (Except.ok t, some t, 0)
  | none =>
    match encode (self.new_token 300 now) with
    | Except.ok t => (Except.ok t, some t, 1)
    | Except.error e => (Except.error e, none, 1)

/-- `legacyStage` rewritten as a flat presence cascade (helper). -/
lemma legacyStage_char (r : DevIdPlusInfoResponse) :
    legacyStage r =
      if hasLog r = true then 5
      else if hasCode r = true then 4
      else if hasHash r = true then 3
      else if hasMoreInfo r = true then 2
      else 1 := by
  unfold legacyStage hasLog hasCode hasHash hasMoreInfo
  cases hl : r.dev_id_plus.log_file_url <;>
    cases hc : r.dev_id_plus.status_code <;>
      cases hm : r.dev_id_plus.more_info <;> simp
  case none.none.some mi => cases hh : mi.hash <;> simp

/-- Grounding of `legacyStage` in the source's `state_str`: in every case the
narration string starts with the stage number (helper). -/
lemma state_str_stage_cases (r : DevIdPlusInfoResponse) :
    (legacyStage r = 5 ∧ r.state_str = "5/5 have log URL; operation complete")
    ∨ (∃ code, r.dev_id_plus.status_code = some code ∧ legacyStage r = 4
        ∧ r.state_str = s!"4/5 have status code ({code}); waiting on log URL")
    ∨ (∃ hash : String, legacyStage r = 3
        ∧ r.state_str = s!"3/5 have hash ({hash}); waiting on status code")
    ∨ (legacyStage r = 2
        ∧ r.state_str = "2/5 some metadata; waiting on hash to appear")
    ∨ (legacyStage r = 1
        ∧ r.state_str = "1/5 initial state; waiting on initial metadata") := by
  unfold legacyStage DevIdPlusInfoResponse.state_str
  cases hl : r.dev_id_plus.log_file_url <;>
    cases hc : r.dev_id_plus.status_code <;>
      cases hm : r.dev_id_plus.more_info <;> simp
  case none.none.some mi =>
    cases hh : mi.hash
    · simp
    · simp
      exact ⟨_, rfl⟩

/-- Lower bound on the stage from the log URL (helper). -/
lemma stage_of_log (r : DevIdPlusInfoResponse) (h : hasLog r = true) :
    legacyStage r = 5 := by
  rw [legacyStage_char]; simp [h]

/-- Lower bound on the stage from the status code (helper). -/
lemma stage_ge_of_code (r : DevIdPlusInfoResponse) (h : hasCode r = true) :
    4 ≤ legacyStage r := by
  rw [legacyStage_char]; split_ifs <;> omega

/-- Lower bound on the stage from the content digest (helper). -/
lemma stage_ge_of_hash (r : DevIdPlusInfoResponse) (h : hasHash r = true) :
    3 ≤ legacyStage r := by
  rw [legacyStage_char]; split_ifs <;> omega

/-- Lower bound on the stage from the more-info section (helper). -/
lemma stage_ge_of_more_info (r : DevIdPlusInfoResponse)
    (h : hasMoreInfo r = true) : 2 ≤ legacyStage r := by
  rw [legacyStage_char]; split_ifs <;> omega

/-- The stage always lies between 1 and 5 (helper). -/
lemma stage_bounds (r : DevIdPlusInfoResponse) :
    1 ≤ legacyStage r ∧ legacyStage r ≤ 5 := by
  rw [legacyStage_char]; split_ifs <;> omega

/-- Claim C1: for every legacy status document, `into_result` succeeds exactly
when both the status code and the status message are present and the code is
0; yields `NotarizeRejected` with that code and message when both are present
and the code is nonzero; and yields `NotarizeIncomplete` whenever the status
code or the status message is absent. -/
theorem C1_into_result_characterization (r : DevIdPlusInfoResponse) :
    (r.into_result = Except.ok r ↔
      r.dev_id_plus.status_code = some 0
        ∧ (r.dev_id_plus.status_message).isSome = true)
    ∧ (∀ code message, r.dev_id_plus.status_code = some code →
        r.dev_id_plus.status_message = some message → code ≠ 0 →
        r.into_result
          = Except.error (AppleCodesignError.NotarizeRejected code message))
    ∧ ((r.dev_id_plus.status_code = none ∨ r.dev_id_plus.status_message = none)
        → r.into_result = Except.error AppleCodesignError.NotarizeIncomplete)
    := by
  unfold DevIdPlusInfoResponse.into_result
  rcases hc : r.dev_id_plus.status_code with _ | code <;>
    rcases hm : r.dev_id_plus.status_message with _ | msg <;> simp

/-- Witness for C1 at the spec's three sample documents. -/
theorem C1_witness :
    (legacyDoc none none (some 0) (some "ok")).into_result
        = Except.ok (legacyDoc none none (some 0) (some "ok"))
    ∧ (legacyDoc none none (some 66) (some "bad signature")).into_result
        = Except.error (AppleCodesignError.NotarizeRejected 66 "bad signature")
    ∧ (legacyDoc none none none none).into_result
        = Except.error AppleCodesignError.NotarizeIncomplete :=
  ⟨(C1_into_result_characterization (legacyDoc none none (some 0) (some "ok"))).1.mpr
      ⟨rfl, rfl⟩,
   (C1_into_result_characterization
      (legacyDoc none none (some 66) (some "bad signature"))).2.1
      66 "bad signature" rfl rfl (by decide),
   (C1_into_result_characterization (legacyDoc none none none none)).2.2
      (Or.inl rfl)⟩

/-- Counterexample to claim C5 as stated: on the document that carries only a
status code (no message, no more-info, no log URL) the source classifier
assigns stage 4 (`StatusKnown`), but the claim's rule — stage 4 only when
code AND message are both present, else fall through the digest/more-info
checks to stage 1 — assigns stage 1. -/
theorem C5_counterexample :
    legacyStage (legacyDoc none none (some 7) none)
      ≠ classifyLegacySpec (legacyDoc none none (some 7) none)
    ∧ legacyStage (legacyDoc none none (some 7) none) = 4
    ∧ classifyLegacySpec (legacyDoc none none (some 7) none) = 1 := by
  refine ⟨by decide, rfl, rfl⟩

/-- Claim C5 (amended): the classifier is total, always lands in stages 1-5,
and assigns the stage by field presence with the stage-4 condition being the
status code alone (the status message is not required): log URL → 5;
otherwise status code → 4; otherwise content digest → 3; otherwise more-info
section → 2; otherwise 1. -/
theorem C5_classify_total_amended (r : DevIdPlusInfoResponse) :
    legacyStage r = classifyLegacyAmended r
    ∧ 1 ≤ legacyStage r ∧ legacyStage r ≤ 5 :=
  ⟨legacyStage_char r, stage_bounds r⟩

/-- Claim C6: the classifier is monotonic — whenever every optional field
present in `a` is also present in `b`, the stage of `b` is not earlier than
the stage of `a`. -/
theorem C6_classify_monotone (a b : DevIdPlusInfoResponse)
    (h : fieldsSubset a b) : legacyStage a ≤ legacyStage b := by
  obtain ⟨h1, h2, h3, h4, h5⟩ := h
  have hchar := legacyStage_char a
  split_ifs at hchar with hl hc hh hm
  · rw [hchar, stage_of_log b (h1 hl)]
  · rw [hchar]; exact stage_ge_of_code b (h2 hc)
  · rw [hchar]; exact stage_ge_of_hash b (h5 hh)
  · rw [hchar]; exact stage_ge_of_more_info b (h4 hm)
  · rw [hchar]; exact (stage_bounds b).1

/-- Witness for C6: a stage-2 document against a stage-4 superset document. -/
theorem C6_witness :
    fieldsSubset (legacyDoc none (some ⟨none⟩) none none)
      (legacyDoc none (some ⟨some "cdhash"⟩) (some 0) none)
    ∧ legacyStage (legacyDoc none (some ⟨none⟩) none none)
        ≤ legacyStage (legacyDoc none (some ⟨some "cdhash"⟩) (some 0) none) :=
  ⟨by refine ⟨?_, ?_, ?_, ?_, ?_⟩ <;> decide,
   C6_classify_monotone _ _ (by refine ⟨?_, ?_, ?_, ?_, ?_⟩ <;> decide)⟩

/-- Claim C7: `is_done` is true exactly when both a status code and a log URL
are present. -/
theorem C7_is_done_iff (r : DevIdPlusInfoResponse) :
    r.is_done = true ↔
      (r.dev_id_plus.status_code).isSome = true
        ∧ (r.dev_id_plus.log_file_url).isSome = true := by
  simp [DevIdPlusInfoResponse.is_done]

/-- Claim C8: a document classified strictly before stage 4 (`StatusKnown`)
always resolves to `NotarizeIncomplete`, never to a rejection or any other
failure. -/
theorem C8_early_stage_incomplete (r : DevIdPlusInfoResponse)
    (h : legacyStage r < 4) :
    r.into_result = Except.error AppleCodesignError.NotarizeIncomplete := by
  have hcode : r.dev_id_plus.status_code = none := by
    rcases hc : r.dev_id_plus.status_code with _ | code
    · rfl
    · exact absurd (stage_ge_of_code r (by simp [hasCode, hc])) (by omega)
  unfold DevIdPlusInfoResponse.into_result
  rw [hcode]

/-- Witness for C8 at a stage-3 document (digest present, no code, no log). -/
theorem C8_witness :
    (legacyDoc none (some ⟨some "cdhash"⟩) none none).into_result
      = Except.error AppleCodesignError.NotarizeIncomplete :=
  C8_early_stage_incomplete (legacyDoc none (some ⟨some "cdhash"⟩) none none)
    (by decide)

/-- Claim C9: the document with a status code and a log URL but no status
message is "done" by `is_done` yet `into_result` still reports
`NotarizeIncomplete`, so `is_done` does not imply a terminal verdict. -/
theorem C9_done_but_incomplete :
    (legacyDoc (some "https://example.invalid/log.json") none (some 0) none).is_done
        = true
    ∧ (legacyDoc (some "https://example.invalid/log.json") none (some 0) none).into_result
        = Except.error AppleCodesignError.NotarizeIncomplete :=
  ⟨rfl, rfl⟩

/-- A concrete notary REST status response used by the C2 witness. -/
def submissionResponseWith (st : SubmissionResponseStatus) : SubmissionResponse :=
  { data :=
    { attributes :=
      { created_date := "2022-06-08T01:07:53.547Z"
        name := "app.zip"
        status := st }
      id := "id-1"
      type := "submissions" }
    meta := Value.null }

/-- Claim C2: `SubmissionResponse::into_result` maps `Accepted` to success,
`InProgress` to `NotarizeIncomplete`, `Invalid` to `NotarizeInvalid`,
`Rejected` to `NotarizeRejected 0` with the generic message, and `Unknown` to
`NotarizeInvalid`; success occurs only at `Accepted`; and every status string
other than the four recognized ones decodes to `Unknown`. -/
theorem C2_submission_outcomes :
    (∀ r : SubmissionResponse,
      (r.data.attributes.status = SubmissionResponseStatus.Accepted →
        r.into_result = Except.ok r)
      ∧ (r.data.attributes.status = SubmissionResponseStatus.InProgress →
        r.into_result = Except.error AppleCodesignError.NotarizeIncomplete)
      ∧ (r.data.attributes.status = SubmissionResponseStatus.Invalid →
        r.into_result = Except.error AppleCodesignError.NotarizeInvalid)
      ∧ (r.data.attributes.status = SubmissionResponseStatus.Rejected →
        r.into_result = Except.error
          (AppleCodesignError.NotarizeRejected 0 "Notarization error"))
      ∧ (r.data.attributes.status = SubmissionResponseStatus.Unknown →
        r.into_result = Except.error AppleCodesignError.NotarizeInvalid)
      ∧ (r.into_result = Except.ok r →
        r.data.attributes.status = SubmissionResponseStatus.Accepted))
    ∧ (∀ s : String, s ≠ "Accepted" → s ≠ "In Progress" → s ≠ "Invalid" →
        s ≠ "Rejected" →
        SubmissionResponseStatus.decode s = SubmissionResponseStatus.Unknown)
    := by
  constructor
  · intro r
    refine ⟨?_, ?_, ?_, ?_, ?_, ?_⟩ <;>
      cases hs : r.data.attributes.status <;>
        simp [SubmissionResponse.into_result, hs]
  · intro s h1 h2 h3 h4
    simp [SubmissionResponseStatus.decode, h1, h2, h3, h4]

/-- Witness for C2: the unrecognized status string "Weird" decodes to
`Unknown`, and an `Unknown` response resolves to `NotarizeInvalid`. -/
theorem C2_witness :
    SubmissionResponseStatus.decode "Weird" = SubmissionResponseStatus.Unknown
    ∧ (submissionResponseWith SubmissionResponseStatus.Unknown).into_result
        = Except.error AppleCodesignError.NotarizeInvalid :=
  ⟨C2_submission_outcomes.2 "Weird" (by decide) (by decide) (by decide)
      (by decide),
   ((C2_submission_outcomes.1
      (submissionResponseWith SubmissionResponseStatus.Unknown)).2.2.2.2.1) rfl⟩

/-- Claim C3: for every signing identity, validity window and current
timestamp (with the sum in `u64` range), the minted token's claim set has
expiry = issued-at + window, issued-at = now, audience
"appstoreconnect-v1", issuer = the identity's issuer id, and its header
carries algorithm ES256 and the identity's key id. -/
theorem C3_new_token_shape (ct : ConnectToken) (duration now : Nat)
    (h : now + duration < U64_MOD) :
    (ct.new_token duration now).2.exp = (ct.new_token duration now).2.iat + duration
    ∧ (ct.new_token duration now).2.iat = now
    ∧ (ct.new_token duration now).2.aud = "appstoreconnect-v1"
    ∧ (ct.new_token duration now).2.iss = ct.issuer_id
    ∧ (ct.new_token duration now).1.alg = Algorithm.ES256
    ∧ (ct.new_token duration now).1.kid = some ct.key_id := by
  unfold ConnectToken.new_token
  exact ⟨by simp [Nat.mod_eq_of_lt h], rfl, rfl, rfl, rfl, rfl⟩

/-- Witness for C3 at a concrete identity, a 300-second window and a concrete
clock reading. -/
theorem C3_witness :
    (ConnectToken.new_token ⟨"DEADBEEF42", "issuer-1"⟩ 300 1654650000).2.exp
        = (ConnectToken.new_token ⟨"DEADBEEF42", "issuer-1"⟩ 300 1654650000).2.iat
            + 300
    ∧ (ConnectToken.new_token ⟨"DEADBEEF42", "issuer-1"⟩ 300 1654650000).1.kid
        = some "DEADBEEF42" :=
  ⟨(C3_new_token_shape ⟨"DEADBEEF42", "issuer-1"⟩ 300 1654650000
      (by norm_num [U64_MOD])).1,
   (C3_new_token_shape ⟨"DEADBEEF42", "issuer-1"⟩ 300 1654650000
      (by norm_num [U64_MOD])).2.2.2.2.2⟩

/-- Claim C4: the single-slot token cache. Once the slot holds `t`, every
later operation returns `t`, leaves the slot unchanged and performs zero
mints, whatever its own mint would have produced; the first operation whose
mint succeeds populates the slot with exactly one mint; and a failed mint
leaves the slot empty. -/
theorem C4_token_cache_stable (ms : List (Except AppleCodesignError String))
    (t : String) :
    runToken ms (some t) = (ms.map (fun _ => Except.ok t), some t, 0)
    ∧ runToken (Except.ok t :: ms) none
        = (Except.ok t :: ms.map (fun _ => Except.ok t), some t, 1)
    ∧ (∀ e, tokenStep (Except.error e) none = (Except.error e, none, 1)) := by
  have hstable : ∀ (ms : List (Except AppleCodesignError String)),
      runToken ms (some t) = (ms.map (fun _ => Except.ok t), some t, 0) := by
    intro ms
    induction ms with
    | nil => rfl
    | cons m ms ih => simp [runToken, tokenStep, ih]
  exact ⟨hstable ms, by simp [runToken, tokenStep, hstable ms], fun e => rfl⟩

/-- Claim C10: every one of the four gateway operations' token blocks, on an
empty slot, mints via `new_token` with the fixed 300-second window (so the
minted claim set has expiry = issued-at + 300 mod 2^64), and on a populated
slot returns the cached token with zero mints, independent of the current
time. -/
theorem C10_fixed_duration (ct : ConnectToken)
    (encode : Header × ConnectTokenRequest → Except AppleCodesignError String)
    (now : Nat) (t : String) :
    (developer_id_plus_info_for_package_with_arguments_token ct encode now none
        = tokenStep (encode (ct.new_token 300 now)) none
      ∧ create_submission_token ct encode now none
        = tokenStep (encode (ct.new_token 300 now)) none
      ∧ get_submission_token ct encode now none
        = tokenStep (encode (ct.new_token 300 now)) none
      ∧ get_submission_log_token ct encode now none
        = tokenStep (encode (ct.new_token 300 now)) none)
    ∧ (ct.new_token 300 now).2.exp
        = ((ct.new_token 300 now).2.iat + 300) % U64_MOD
    ∧ (developer_id_plus_info_for_package_with_arguments_token ct encode now
          (some t) = (Except.ok t, some t, 0)
      ∧ create_submission_token ct encode now (some t)
          = (Except.ok t, some t, 0)
      ∧ get_submission_token ct encode now (some t) = (Except.ok t, some t, 0)
      ∧ get_submission_log_token ct encode now (some t)
          = (Except.ok t, some t, 0)) :=
  ⟨⟨rfl, rfl, rfl, rfl⟩, rfl, rfl, rfl, rfl, rfl⟩

end AppStoreConnect
